import Mathlib

/-!
Verification of the password generation and strength scoring core of the
Arch Password Generator API (src/Api/api.js).

The two functions `generatePassword` and `calculatePasswordStrength` are
embedded shallowly: strings become `List Char` / `String`, the JS number
arithmetic becomes `Int` / `Nat`, `Math.random()` becomes an injected
stream `Nat → Rat` of values (documented to lie in `[0,1)`), and the
`try`/`throw`/`catch` control flow becomes `Except` plus an envelope type.
Regex tests from the source are embedded as explicit scans over the
character list.
-/

/-! ## Strength scorer (calculatePasswordStrength, api.js lines 138-180) -/

/-- Character class `[a-z]` of the regex at line 150. -/
def isLowerAZ (c : Char) : Bool := 'a' ≤ c && c ≤ 'z'

/-- Character class `[A-Z]` of the regex at line 153. -/
def isUpperAZ (c : Char) : Bool := 'A' ≤ c && c ≤ 'Z'

/-- Character class `[0-9]` of the regex at line 156. -/
def isDigit09 (c : Char) : Bool := '0' ≤ c && c ≤ '9'

/-- `/[a-z]/.test(password)` -/
def hasLower (p : List Char) : Bool := p.any isLowerAZ

/-- `/[A-Z]/.test(password)` -/
def hasUpper (p : List Char) : Bool := p.any isUpperAZ

/-- `/[0-9]/.test(password)` -/
def hasDigit (p : List Char) : Bool := p.any isDigit09

/-- `/[^A-Za-z0-9]/.test(password)`: some character outside `A-Za-z0-9`. -/
def hasSpecial (p : List Char) : Bool :=
  p.any (fun c => !(isLowerAZ c || isUpperAZ c || isDigit09 c))

/-- The regex metacharacter `.` matches any character except a line
terminator (`\n`, `\r`, U+2028, U+2029). -/
def isRegexDot (c : Char) : Bool :=
  !("\n\r\u2028\u2029".data.contains c)

/-- The repetition test at line 163 is the regex literal `/(.)\\1{2,}/`.
Inside a regex literal `\\` matches one literal backslash, so the pattern
matches: any (dot) character, then a backslash, then the character `1` at
least twice.  This scan reports whether such a match exists anywhere. -/
def repeatBugMatch : List Char → Bool
  | x :: y :: z :: w :: rest =>
      (isRegexDot x && y == '\\' && z == '1' && w == '1')
        || repeatBugMatch (y :: z :: w :: rest)
  | _ => false

/-- One window of the alternation
`abc|bcd|cde|123|234|345|456|567|678|789` (line 166). -/
def tripleHit (x y z : Char) : Bool :=
  (x == 'a' && y == 'b' && z == 'c') ||
  (x == 'b' && y == 'c' && z == 'd') ||
  (x == 'c' && y == 'd' && z == 'e') ||
  (x == '1' && y == '2' && z == '3') ||
  (x == '2' && y == '3' && z == '4') ||
  (x == '3' && y == '4' && z == '5') ||
  (x == '4' && y == '5' && z == '6') ||
  (x == '5' && y == '6' && z == '7') ||
  (x == '6' && y == '7' && z == '8') ||
  (x == '7' && y == '8' && z == '9')

/-- `/abc|bcd|cde|123|234|345|456|567|678|789/.test(...)`: some
consecutive 3-character window matches one of the ten alternatives. -/
def seqMatch : List Char → Bool
  | x :: y :: z :: rest => tripleHit x y z || seqMatch (y :: z :: rest)
  | _ => false

/-- `password.toLowerCase()` restricted to ASCII case mapping, which is
all that the scanned patterns can distinguish. -/
def jsToLower (p : List Char) : List Char := p.map Char.toLower

/-- `{score, level, feedback}` object returned by
`calculatePasswordStrength`.  The level labels are the literal strings of
the source. -/
structure StrengthResult where
  score : Int
  level : String
  feedback : List String
deriving DecidableEq, Repr

/-- The additive score with every check of lines 143-160 and the
repetition penalty of line 163 applied, but before the sequential
characters penalty of lines 166-168. -/
def rawScoreNoSeq (p : List Char) : Int :=
  (if p.length ≥ 8 then 20 else 0) +
  (if p.length ≥ 12 then 10 else 0) +
  (if p.length ≥ 16 then 10 else 0) +
  (if hasLower p then 10 else 0) +
  (if hasUpper p then 10 else 0) +
  (if hasDigit p then 10 else 0) +
  (if hasSpecial p then 20 else 0) -
  (if repeatBugMatch p then 10 else 0)

/-- The full additive score of lines 139-168, before clamping. -/
def rawScore (p : List Char) : Int :=
  rawScoreNoSeq p - (if seqMatch (jsToLower p) then 5 else 0)

/-- The level ladder of lines 170-173, applied by the source to the
unclamped score. -/
def strengthLevelOf (score : Int) : String :=
  if score ≥ 80 then "very_strong"
  else if score ≥ 60 then "strong"
  else if score ≥ 40 then "moderate"
  else if score ≥ 20 then "weak"
  else "very_weak"

/-- The feedback messages pushed by lines 143-160, in source order. -/
def feedbackOf (p : List Char) : List String :=
  (if p.length ≥ 8 then [] else ["Password should be at least 8 characters long"]) ++
  (if hasLower p then [] else ["Add lowercase letters"]) ++
  (if hasUpper p then [] else ["Add uppercase letters"]) ++
  (if hasDigit p then [] else ["Add numbers"]) ++
  (if hasSpecial p then [] else ["Add special characters"])

/-- `calculatePasswordStrength` (lines 138-180): the returned score is
`Math.max(0, Math.min(100, score))` while the level is computed from the
unclamped score. -/
def calculatePasswordStrength (password : String) : StrengthResult :=
  ⟨max 0 (min 100 (rawScore password.data)),
   strengthLevelOf (rawScore password.data),
   feedbackOf password.data⟩

/-! ### Spec-side sequential-run predicates

The spec describes the sequential penalty as firing on "any 3-character
ascending run among `abc…z` or `123…9` (case-insensitive)".  An ascending
run of a list `l` is a consecutive 3-window of `l` that is also a
consecutive 3-window of the reference alphabet. -/

/-- Whether `[x, y, z]` occurs as a consecutive window of `l`. -/
def containsTriple (x y z : Char) : List Char → Bool
  | a :: b :: c :: rest =>
      (x == a && y == b && z == c) || containsTriple x y z (b :: c :: rest)
  | _ => false

/-- Modelled from the spec: some consecutive 3-window of the input is an
ascending run of the full alphabet `abc…z` or of the digits `123…9`. -/
def specSeqRun : List Char → Bool
  | x :: y :: z :: rest =>
      (containsTriple x y z "abcdefghijklmnopqrstuvwxyz".data
        || containsTriple x y z "123456789".data)
        || specSeqRun (y :: z :: rest)
  | _ => false

/-- The restriction of `specSeqRun` that the code actually implements:
letter runs only among the windows of `abcde` (`abc`, `bcd`, `cde`),
digit runs among all of `123…9`. -/
def specRestrictedSeqRun : List Char → Bool
  | x :: y :: z :: rest =>
      (containsTriple x y z "abcde".data
        || containsTriple x y z "123456789".data)
        || specRestrictedSeqRun (y :: z :: rest)
  | _ => false

/-! ## Generator (generatePassword, api.js lines 69-131) -/

/-- One entry of `PASSWORD_CONFIGS` (lines 39-60). -/
structure PasswordConfig where
  characters : String
  defaultLength : Nat
  maxLength : Nat
deriving DecidableEq, Repr

def simpleConfig : PasswordConfig :=
  ⟨"abcdefghijklmnopqrstuvwxyz0123456789", 8, 50⟩

def standardConfig : PasswordConfig :=
  ⟨"abcdefghijklmnopqrstuvwxyzABCDEFGHIJKLMNOPQRSTUVWXYZ0123456789", 12, 100⟩

def complexConfig : PasswordConfig :=
  ⟨"abcdefghijklmnopqrstuvwxyzABCDEFGHIJKLMNOPQRSTUVWXYZ0123456789@#$%&*!?+=", 16, 100⟩

def secureConfig : PasswordConfig :=
  ⟨"abcdefghijklmnopqrstuvwxyzABCDEFGHIJKLMNOPQRSTUVWXYZ0123456789@#$%&*!?+=[]\x7b\x7d()<>", 20, 100⟩

/-- The string-keyed members every plain object inherits from
`Object.prototype`: eleven functions plus the `__proto__` accessor
(whose value is the `Object.prototype` object itself).  All of them are
truthy. -/
def objectProtoNames : List String :=
  ["constructor", "hasOwnProperty", "isPrototypeOf", "propertyIsEnumerable",
   "toLocaleString", "toString", "valueOf", "__proto__", "__defineGetter__",
   "__defineSetter__", "__lookupGetter__", "__lookupSetter__"]

/-- Outcome of the JS property access `PASSWORD_CONFIGS[type]` (line 72).
Property access consults the prototype chain, so besides the four own
data keys, any `Object.prototype` member name yields a truthy value that
passes the `!PASSWORD_CONFIGS[type]` check without being a preset
configuration; every other name yields `undefined`, which is falsy. -/
inductive ConfigLookup where
  | config (c : PasswordConfig)
  | protoValue
  | undef
deriving DecidableEq, Repr

/-- Key lookup in the `PASSWORD_CONFIGS` object literal, prototype chain
included. -/
def PASSWORD_CONFIGS (type : String) : ConfigLookup :=
  if type = "simple" then ConfigLookup.config simpleConfig
  else if type = "standard" then ConfigLookup.config standardConfig
  else if type = "complex" then ConfigLookup.config complexConfig
  else if type = "secure" then ConfigLookup.config secureConfig
  else if type ∈ objectProtoNames then ConfigLookup.protoValue
  else ConfigLookup.undef

/-- `Object.keys(PASSWORD_CONFIGS)`, in declaration order. -/
def validTypes : List String := ["simple", "standard", "complex", "secure"]

/-- The character class `[0O1Il]` of the replace at line 87. -/
def ambiguousChar (c : Char) : Bool :=
  "0O1Il".data.contains c

/-- Lines 83-88: the working alphabet, with every ambiguous character
removed when `excludeAmbiguous` is set. -/
def resolvedAlphabet (config : PasswordConfig) (excludeAmbiguous : Bool) : List Char :=
  if excludeAmbiguous then config.characters.data.filter (fun c => !ambiguousChar c)
  else config.characters.data

/-- `characters.charAt(i)`: the one-character string at index `i`, or the
empty string when `i` is out of range. -/
def jsCharAt (s : List Char) (i : Int) : List Char :=
  if 0 ≤ i ∧ i < (s.length : Int) then [s.getD i.toNat 'a'] else []

/-- The sampling loop of lines 91-97 after `len` iterations: at step `i`
the index is `Math.floor(rnd i * characters.length)` where `rnd i` stands
for the `i`-th value drawn from `Math.random()`. -/
def genChars (characters : List Char) (rnd : Nat → Rat) : Nat → List Char
  | 0 => []
  | n + 1 =>
      genChars characters rnd n ++
        jsCharAt characters (Int.floor (rnd n * (characters.length : Rat)))

/-- The errors the `try` block can raise: the two explicit `throw` sites
of the validation code (lines 72-81), the length throw reached with an
`undefined` `config.maxLength` on the prototype-member path, and the
runtime TypeError raised when a property of the `undefined` `characters`
is read (line 87 or 92) on that same path. -/
inductive GenError where
  | invalidPreset (validNames : List String)
  | invalidLength (maxLen : Nat)
  | invalidLengthNoMax
  | typeError (prop : String)
deriving DecidableEq, Repr

/-- The `error.message` strings: the templates of lines 73 and 80 (the
latter interpolating `undefined` when the looked-up value has no
`maxLength`), and Node's message for a property read on `undefined`. -/
def GenError.message : GenError → String
  | .invalidPreset names =>
      "Invalid password type. Available types: " ++ String.intercalate ", " names
  | .invalidLength maxLen =>
      "Password length must be between 4 and " ++ toString maxLen ++ " characters"
  | .invalidLengthNoMax =>
      "Password length must be between 4 and undefined characters"
  | .typeError prop =>
      "Cannot read properties of undefined (reading \x27" ++ prop ++ "\x27)"

/-- The `data` object of a successful generation (lines 104-110). -/
structure GeneratedData where
  password : String
  length : Nat
  type : String
  strength : StrengthResult
  excludedAmbiguous : Bool
deriving DecidableEq, Repr

/-- The body of the `try` block (lines 71-116): validation, alphabet
resolution, sampling, and scoring.  On the prototype-member path the
looked-up value has `maxLength = undefined`, so `length > maxLength`
compares against `NaN` and is false: only `length < 4` can raise the
length error there; otherwise `characters = config.characters` is
`undefined` and the first property read on it — `.replace` at line 87
when ambiguous characters are excluded, else `.length` at line 92 —
raises a TypeError that the `catch` absorbs. -/
def generatePasswordCore (length : Int) (type : String) (excludeAmbiguous : Bool)
    (rnd : Nat → Rat) : Except GenError GeneratedData :=
  match PASSWORD_CONFIGS type with
  | ConfigLookup.undef => Except.error (GenError.invalidPreset validTypes)
  | ConfigLookup.protoValue =>
      if length < 4 then Except.error GenError.invalidLengthNoMax
      else if excludeAmbiguous then Except.error (GenError.typeError "replace")
      else Except.error (GenError.typeError "length")
  | ConfigLookup.config config =>
      if length < 4 ∨ length > (config.maxLength : Int) then
        Except.error (GenError.invalidLength config.maxLength)
      else
        let characters := resolvedAlphabet config excludeAmbiguous
        let pw := genChars characters rnd length.toNat
        Except.ok ⟨String.mk pw, pw.length, type,
          calculatePasswordStrength (String.mk pw), excludeAmbiguous⟩

/-- The `error` object of the `catch` block (lines 120-123). -/
structure ErrorInfo where
  message : String
  code : String
deriving DecidableEq, Repr

/-- The envelope returned by `generatePassword`: either the success shape
of lines 102-116 or the failure shape of lines 118-129 (the `meta` block,
identical in both shapes up to the wall-clock timestamp, is omitted). -/
inductive GenResult where
  | ok (data : GeneratedData)
  | err (error : ErrorInfo)
deriving DecidableEq, Repr

/-- The `success` field of the envelope. -/
def GenResult.success : GenResult → Bool
  | .ok _ => true
  | .err _ => false

/-- `generatePassword` (lines 69-131): the `try`/`catch` wrapper around
`generatePasswordCore`; every thrown error is caught and packaged with
its message under the fixed code `GENERATION_ERROR`. -/
def generatePassword (length : Int) (type : String) (excludeAmbiguous : Bool)
    (rnd : Nat → Rat) : GenResult :=
  match generatePasswordCore length type excludeAmbiguous rnd with
  | Except.ok d => GenResult.ok d
  | Except.error e => GenResult.err ⟨e.message, "GENERATION_ERROR"⟩

/-! ## Helper lemmas -/

/-- Each alternative of the scanned pattern is exactly a 3-window of
`abcde` (for the letter alternatives) or of `123456789`. -/
lemma tripleHit_window (x y z : Char) :
    tripleHit x y z =
      (containsTriple x y z "abcde".data || containsTriple x y z "123456789".data) := by
  rw [show "abcde".data = 'a' :: 'b' :: 'c' :: 'd' :: 'e' :: [] from rfl]
  rw [show "123456789".data =
    '1' :: '2' :: '3' :: '4' :: '5' :: '6' :: '7' :: '8' :: '9' :: [] from rfl]
  simp only [tripleHit, containsTriple, Bool.or_false, Bool.or_assoc]

/-- The source's sequential-characters test coincides with the
restricted ascending-run predicate. -/
theorem seqMatch_eq_specRestricted : ∀ (l : List Char), seqMatch l = specRestrictedSeqRun l
  | [] => rfl
  | [_] => rfl
  | [_, _] => rfl
  | x :: y :: z :: rest => by
      rw [seqMatch, specRestrictedSeqRun, tripleHit_window,
        seqMatch_eq_specRestricted (y :: z :: rest)]

/-- The unclamped additive score always lies in `[-15, 90]`. -/
lemma rawScore_bounds (p : List Char) : -15 ≤ rawScore p ∧ rawScore p ≤ 90 := by
  unfold rawScore rawScoreNoSeq
  split_ifs <;> omega

/-- Below every threshold, the ladder answers `very_weak`. -/
lemma strengthLevelOf_low {r : Int} (h : r < 20) : strengthLevelOf r = "very_weak" := by
  have h80 : ¬ r ≥ 80 := by omega
  have h60 : ¬ r ≥ 60 := by omega
  have h40 : ¬ r ≥ 40 := by omega
  have h20 : ¬ r ≥ 20 := by omega
  unfold strengthLevelOf
  simp only [h80, h60, h40, h20, if_false]

/-- On the reachable range of the unclamped score, the level ladder gives
the same answer before and after clamping. -/
lemma levelOf_clamp {r : Int} (hlo : -15 ≤ r) (hhi : r ≤ 90) :
    strengthLevelOf r = strengthLevelOf (max 0 (min 100 r)) := by
  rcases le_or_lt 0 r with h | h
  · rw [show max 0 (min 100 r) = r by omega]
  · rw [show max 0 (min 100 r) = 0 by omega]
    rw [strengthLevelOf_low (by omega), strengthLevelOf_low (by omega)]

/-- `Math.floor(r * n)` lands in `[0, n)` when `r ∈ [0, 1)` and `n > 0`. -/
lemma floor_index_range {r : Rat} (h0 : 0 ≤ r) (h1 : r < 1) {n : Nat} (hn : 0 < n) :
    0 ≤ Int.floor (r * (n : Rat)) ∧ Int.floor (r * (n : Rat)) < (n : Int) := by
  constructor
  · apply Int.le_floor.mpr
    push_cast
    exact mul_nonneg h0 (Nat.cast_nonneg n)
  · apply Int.floor_lt.mpr
    push_cast
    calc r * (n : Rat) < 1 * (n : Rat) := by
          apply mul_lt_mul_of_pos_right h1
          exact_mod_cast hn
      _ = (n : Rat) := one_mul _

lemma jsCharAt_length_one {s : List Char} {i : Int} (h0 : 0 ≤ i) (h1 : i < (s.length : Int)) :
    (jsCharAt s i).length = 1 := by
  unfold jsCharAt
  rw [if_pos ⟨h0, h1⟩]
  rfl

lemma jsCharAt_mem {s : List Char} {i : Int} {c : Char} (h : c ∈ jsCharAt s i) : c ∈ s := by
  unfold jsCharAt at h
  split at h
  · next hcond =>
      have hlt : i.toNat < s.length := by omega
      rw [List.mem_singleton] at h
      subst h
      rw [s.getD_eq_getElem 'a' hlt]
      exact s.getElem_mem hlt
  · exact absurd h (List.not_mem_nil c)

/-- With an in-range random stream and a non-empty alphabet, the sampling
loop emits one character per iteration. -/
lemma genChars_length {chars : List Char} (hne : 0 < chars.length) (rnd : Nat → Rat)
    (hr : ∀ i, 0 ≤ rnd i ∧ rnd i < 1) : ∀ len, (genChars chars rnd len).length = len := by
  intro len
  induction len with
  | zero => rfl
  | succ n ih =>
      have hfl := floor_index_range (hr n).1 (hr n).2 hne
      rw [genChars, List.length_append, ih,
        jsCharAt_length_one hfl.1 (by exact_mod_cast hfl.2)]

/-- Every character the sampling loop emits comes from the alphabet. -/
lemma genChars_mem {chars : List Char} {rnd : Nat → Rat} :
    ∀ {len : Nat} {c : Char}, c ∈ genChars chars rnd len → c ∈ chars := by
  intro len
  induction len with
  | zero => intro c h; exact absurd h (List.not_mem_nil c)
  | succ n ih =>
      intro c h
      rw [genChars, List.mem_append] at h
      rcases h with h | h
      · exact ih h
      · exact jsCharAt_mem h

lemma config_cases {type : String} {config : PasswordConfig}
    (hc : PASSWORD_CONFIGS type = ConfigLookup.config config) :
    config = simpleConfig ∨ config = standardConfig ∨ config = complexConfig ∨
      config = secureConfig := by
  unfold PASSWORD_CONFIGS at hc
  split_ifs at hc <;> simp_all

/-- A name inherited from `Object.prototype` resolves to a truthy
non-configuration value. -/
lemma lookup_proto_name {type : String} (h : type ∈ objectProtoNames) :
    PASSWORD_CONFIGS type = ConfigLookup.protoValue := by
  simp only [objectProtoNames, List.mem_cons, List.not_mem_nil, or_false] at h
  rcases h with h | h | h | h | h | h | h | h | h | h | h | h <;> subst h <;> decide

/-- A name that is neither an own preset key nor inherited from
`Object.prototype` looks up as `undefined`. -/
lemma lookup_undef {type : String} (h1 : type ∉ validTypes)
    (h2 : type ∉ objectProtoNames) : PASSWORD_CONFIGS type = ConfigLookup.undef := by
  simp only [validTypes, List.mem_cons, List.not_mem_nil, or_false, not_or] at h1
  unfold PASSWORD_CONFIGS
  rw [if_neg h1.1, if_neg h1.2.1, if_neg h1.2.2.1, if_neg h1.2.2.2, if_neg h2]

/-- Every built-in alphabet stays non-empty, with or without the
ambiguous-character filter. -/
lemma resolvedAlphabet_pos {type : String} {config : PasswordConfig}
    (hc : PASSWORD_CONFIGS type = ConfigLookup.config config) (excl : Bool) :
    0 < (resolvedAlphabet config excl).length := by
  rcases config_cases hc with h | h | h | h <;> subst h <;> cases excl <;> decide

lemma resolvedAlphabet_no_ambiguous {config : PasswordConfig} {c : Char}
    (h : c ∈ resolvedAlphabet config true) : ambiguousChar c = false := by
  unfold resolvedAlphabet at h
  rw [if_pos rfl] at h
  have := (List.mem_filter.mp h).2
  simp only [Bool.not_eq_eq_eq_not, Bool.not_true] at this
  exact this

/-- With the all-zeros random stream every draw picks index 0. -/
lemma genChars_zero_stream (chars : List Char) (hne : 0 < chars.length) :
    ∀ len, genChars chars (fun _ => 0) len = List.replicate len (chars.getD 0 'a') := by
  intro len
  induction len with
  | zero => rfl
  | succ n ih =>
      have hfl : Int.floor ((0 : Rat) * (chars.length : Rat)) = 0 := by
        rw [zero_mul, Int.floor_zero]
      rw [genChars, ih, List.replicate_succ']
      congr 1
      unfold jsCharAt
      rw [hfl, if_pos ⟨le_refl 0, by exact_mod_cast hne⟩]
      rfl

/-- Concrete run: `simple` preset, length 4, ambiguous excluded, all-zeros
stream. -/
lemma core_simple4_true :
    generatePasswordCore 4 "simple" true (fun _ => 0) =
      Except.ok ⟨"aaaa", 4, "simple", calculatePasswordStrength "aaaa", true⟩ := by
  have h := genChars_zero_stream (resolvedAlphabet simpleConfig true) (by decide) 4
  unfold generatePasswordCore
  rw [show PASSWORD_CONFIGS "simple" = ConfigLookup.config simpleConfig from by decide]
  dsimp only
  rw [if_neg (show ¬((4:Int) < 4 ∨ (4:Int) > (simpleConfig.maxLength : Int)) from by decide)]
  rw [show Int.toNat 4 = 4 from rfl, h]
  simp only [Except.ok.injEq]
  decide

/-- Concrete run: `standard` preset, length 12, all-zeros stream. -/
lemma core_standard12_zero :
    generatePasswordCore 12 "standard" false (fun _ => 0) =
      Except.ok ⟨"aaaaaaaaaaaa", 12, "standard",
        calculatePasswordStrength "aaaaaaaaaaaa", false⟩ := by
  have h := genChars_zero_stream (resolvedAlphabet standardConfig false) (by decide) 12
  unfold generatePasswordCore
  rw [show PASSWORD_CONFIGS "standard" = ConfigLookup.config standardConfig from by decide]
  dsimp only
  rw [if_neg (show ¬((12:Int) < 4 ∨ (12:Int) > (standardConfig.maxLength : Int)) from by decide)]
  rw [show Int.toNat 12 = 12 from rfl, h]
  simp only [Except.ok.injEq]
  decide

/-! ## Claim theorems -/

/-- C1: the spec says `score("aaaa1111")` receives the length bonus, the
digit and lowercase bonuses, and a −10 consecutive-repetition penalty.
The code's repetition regex `/(.)\\1{2,}/` does not fire on `"aaaa1111"`
(it only matches a character followed by a literal backslash and two `1`
characters, as the third conjunct shows), so the score is
20 + 10 + 10 = 40 with no penalty, not 30. -/
theorem score_aaaa1111_no_repetition_penalty :
    calculatePasswordStrength "aaaa1111" =
      ⟨40, "moderate", ["Add uppercase letters", "Add special characters"]⟩ ∧
    repeatBugMatch "aaaa1111".data = false ∧
    repeatBugMatch "a\\11".data = true := by
  decide

/-- C2: evaluation of the generator at a concrete input.  The password is
produced entirely by the injected `rnd` stream, which in the source is
`Math.random()` — a seeded general-purpose generator, not the
cryptographically secure source the spec (and the source's own comment at
line 90) requires. -/
theorem generation_driven_by_mathRandom_stream :
    generatePassword 12 "standard" false (fun _ => 0) =
      GenResult.ok ⟨"aaaaaaaaaaaa", 12, "standard",
        calculatePasswordStrength "aaaaaaaaaaaa", false⟩ := by
  unfold generatePassword
  rw [core_standard12_zero]

/-- C3 (counterexample): `"def"` is an ascending 3-run of `abc…z`, yet the
code applies no −5 delta: the raw score equals the score with no
sequential penalty, and the final score is 10 (lowercase bonus only). -/
theorem seq_penalty_not_applied_to_def :
    specSeqRun (jsToLower "def".data) = true ∧
    seqMatch (jsToLower "def".data) = false ∧
    (calculatePasswordStrength "def").score = 10 ∧
    rawScore "def".data = rawScoreNoSeq "def".data := by
  decide

/-- C3 (amended): the −5 delta is applied exactly when the lowercased
password contains a 3-character window that is an ascending run of
`abcde` (i.e. `abc`, `bcd`, `cde`) or of `123456789`; ascending letter
runs from `def` through `xyz` never trigger it. -/
theorem seq_penalty_characterization (p : String) :
    rawScore p.data =
      rawScoreNoSeq p.data -
        (if specRestrictedSeqRun (jsToLower p.data) then 5 else 0) ∧
    (calculatePasswordStrength p).score =
      max 0 (min 100 (rawScoreNoSeq p.data -
        (if specRestrictedSeqRun (jsToLower p.data) then 5 else 0))) := by
  constructor
  · rw [rawScore, seqMatch_eq_specRestricted]
  · rw [calculatePasswordStrength]
    rw [rawScore, seqMatch_eq_specRestricted]

/-- C4: the scorer is a total function and its returned score is always
clamped into `[0, 100]`, for every input string including the empty
string. -/
theorem score_total_and_clamped (p : String) :
    0 ≤ (calculatePasswordStrength p).score ∧ (calculatePasswordStrength p).score ≤ 100 := by
  have h := rawScore_bounds p.data
  unfold calculatePasswordStrength
  dsimp only
  omega

/-- C5: for every valid `(length, presetName)` pair and every in-range
random stream, generation succeeds and the password value's length equals
the requested length. -/
theorem generated_length_equals_request (type : String) (config : PasswordConfig)
    (hc : PASSWORD_CONFIGS type = ConfigLookup.config config) (length : Int) (h4 : 4 ≤ length)
    (hm : length ≤ (config.maxLength : Int)) (excl : Bool) (rnd : Nat → Rat)
    (hr : ∀ i, 0 ≤ rnd i ∧ rnd i < 1) :
    ∃ d, generatePasswordCore length type excl rnd = Except.ok d ∧
      d.password.length = length.toNat ∧ d.length = length.toNat := by
  have hpos := resolvedAlphabet_pos hc excl
  unfold generatePasswordCore
  rw [hc]
  dsimp only
  rw [if_neg (by omega)]
  exact ⟨_, rfl, genChars_length hpos rnd hr length.toNat,
    genChars_length hpos rnd hr length.toNat⟩

/-- C5 witness: the `simple` preset at length 16 with the all-zeros
stream. -/
theorem generated_length_equals_request_witness :
    PASSWORD_CONFIGS "simple" = ConfigLookup.config simpleConfig ∧
    (4:Int) ≤ 16 ∧ (16:Int) ≤ (simpleConfig.maxLength : Int) ∧
    ((0:Rat) ≤ 0 ∧ (0:Rat) < 1) ∧
    (∃ d, generatePasswordCore 16 "simple" false (fun _ => (0:Rat)) = Except.ok d ∧
      d.password.length = (16:Int).toNat ∧ d.length = (16:Int).toNat) :=
  ⟨by decide, by decide, by decide, ⟨le_refl 0, zero_lt_one⟩,
    generated_length_equals_request "simple" simpleConfig (by decide) 16 (by decide)
      (by decide) false (fun _ => 0) (fun _ => ⟨le_refl 0, zero_lt_one⟩)⟩

/-- C6: every character of a successfully generated password belongs to
the resolved working alphabet; with `excludeAmbiguous = true` it is never
one of `0, O, 1, I, l`. -/
theorem generated_chars_in_resolved_alphabet (type : String) (config : PasswordConfig)
    (hc : PASSWORD_CONFIGS type = ConfigLookup.config config) (length : Int) (excl : Bool)
    (rnd : Nat → Rat) (d : GeneratedData)
    (hok : generatePasswordCore length type excl rnd = Except.ok d) :
    ∀ c ∈ d.password.data, c ∈ resolvedAlphabet config excl ∧
      (excl = true → ambiguousChar c = false) := by
  unfold generatePasswordCore at hok
  rw [hc] at hok
  dsimp only at hok
  split_ifs at hok
  rw [Except.ok.injEq] at hok
  subst hok
  intro c hcmem
  have hin : c ∈ resolvedAlphabet config excl := genChars_mem hcmem
  refine ⟨hin, ?_⟩
  intro hexcl
  subst hexcl
  exact resolvedAlphabet_no_ambiguous hin

/-- C6 witness: the `simple` preset at length 4 with ambiguous characters
excluded, all-zeros stream, checked at the character `'a'` of the output
`"aaaa"`. -/
theorem generated_chars_in_resolved_alphabet_witness :
    PASSWORD_CONFIGS "simple" = ConfigLookup.config simpleConfig ∧
    generatePasswordCore 4 "simple" true (fun _ => (0:Rat)) =
      Except.ok ⟨"aaaa", 4, "simple", calculatePasswordStrength "aaaa", true⟩ ∧
    'a' ∈ ("aaaa" : String).data ∧
    ('a' ∈ resolvedAlphabet simpleConfig true ∧ (true = true → ambiguousChar 'a' = false)) :=
  ⟨by decide, core_simple4_true, by decide,
    generated_chars_in_resolved_alphabet "simple" simpleConfig (by decide) 4 true
      (fun _ => 0) _ core_simple4_true 'a' (by decide)⟩

/-- C7: with a valid preset, generation fails with the `InvalidLength`
error exactly when the length lies outside `[4, preset.maxLength]`, and
succeeds on the whole of `[4, preset.maxLength]` (in particular at both
boundaries). -/
theorem length_validation_boundary (type : String) (config : PasswordConfig)
    (hc : PASSWORD_CONFIGS type = ConfigLookup.config config) (excl : Bool) (rnd : Nat → Rat)
    (length : Int) :
    (generatePasswordCore length type excl rnd =
        Except.error (GenError.invalidLength config.maxLength) ↔
      (length < 4 ∨ length > (config.maxLength : Int))) ∧
    (4 ≤ length → length ≤ (config.maxLength : Int) →
      ∃ d, generatePasswordCore length type excl rnd = Except.ok d) := by
  unfold generatePasswordCore
  rw [hc]
  dsimp only
  by_cases hbad : length < 4 ∨ length > (config.maxLength : Int)
  · rw [if_pos hbad]
    exact ⟨⟨fun _ => hbad, fun _ => rfl⟩, fun h4 hm => absurd hbad (by omega)⟩
  · rw [if_neg hbad]
    exact ⟨⟨fun h => absurd h (by simp), fun h => absurd h hbad⟩, fun _ _ => ⟨_, rfl⟩⟩

/-- C7 witness: the `simple` preset at the out-of-range length 3. -/
theorem length_validation_boundary_witness :
    PASSWORD_CONFIGS "simple" = ConfigLookup.config simpleConfig ∧
    ((generatePasswordCore 3 "simple" false (fun _ => (0:Rat)) =
        Except.error (GenError.invalidLength simpleConfig.maxLength) ↔
      ((3:Int) < 4 ∨ (3:Int) > (simpleConfig.maxLength : Int))) ∧
     (4 ≤ (3:Int) → (3:Int) ≤ (simpleConfig.maxLength : Int) →
       ∃ d, generatePasswordCore 3 "simple" false (fun _ => (0:Rat)) = Except.ok d)) :=
  ⟨by decide, length_validation_boundary "simple" simpleConfig (by decide) false
    (fun _ => 0) 3⟩

/-- C8 (counterexample): `"toString"` is not one of the four preset
names, yet generation does not fail with the `InvalidPreset` error
listing the valid names: the inherited `Object.prototype.toString` makes
`PASSWORD_CONFIGS[type]` truthy, the check at line 72 passes, and the run
dies reading `.length` of the `undefined` `characters` — a caught generic
TypeError in the envelope. -/
theorem proto_name_bypasses_preset_check :
    "toString" ∉ validTypes ∧
    generatePassword 10 "toString" false (fun _ => 0) =
      GenResult.err ⟨"Cannot read properties of undefined (reading \x27length\x27)",
        "GENERATION_ERROR"⟩ ∧
    generatePassword 10 "toString" false (fun _ => 0) ≠
      GenResult.err ⟨(GenError.invalidPreset validTypes).message, "GENERATION_ERROR"⟩ := by
  decide

/-- C8 (amended): a preset name outside `{simple, standard, complex,
secure}` makes generation fail with the `InvalidPreset` error carrying
the list of valid names — unless the name is inherited from
`Object.prototype` (`constructor`, `toString`, `__proto__`, …), in which
case the truthiness check passes and generation fails later with a
caught generic TypeError (reading `.replace` or `.length` of
`undefined`; lengths below 4 still hit the length throw first).  Every
name in the fixed set resolves to a configuration. -/
theorem preset_validation (type : String) :
    (type ∉ validTypes → type ∉ objectProtoNames →
      ∀ (length : Int) (excl : Bool) (rnd : Nat → Rat),
        generatePasswordCore length type excl rnd =
          Except.error (GenError.invalidPreset validTypes)) ∧
    (type ∈ objectProtoNames →
      ∀ (length : Int) (excl : Bool) (rnd : Nat → Rat), 4 ≤ length →
        generatePasswordCore length type excl rnd =
          Except.error (GenError.typeError (if excl then "replace" else "length"))) ∧
    (type ∈ validTypes → ∃ config, PASSWORD_CONFIGS type = ConfigLookup.config config) := by
  refine ⟨?_, ?_, ?_⟩
  · intro h1 h2 length excl rnd
    unfold generatePasswordCore
    rw [lookup_undef h1 h2]
  · intro h length excl rnd h4
    unfold generatePasswordCore
    rw [lookup_proto_name h]
    dsimp only
    rw [if_neg (by omega : ¬ length < 4)]
    cases excl <;> rfl
  · intro h
    simp only [validTypes, List.mem_cons, List.not_mem_nil, or_false] at h
    rcases h with h | h | h | h <;> subst h <;> exact ⟨_, rfl⟩

/-- C8 witness: the spec's own example `generate(10, "nonexistent",
false)` hits the `InvalidPreset` branch, while `generate(10, "toString",
false)` exercises the prototype-member branch. -/
theorem preset_validation_witness :
    ("nonexistent" ∉ validTypes ∧ "nonexistent" ∉ objectProtoNames ∧
      generatePasswordCore 10 "nonexistent" false (fun _ => (0:Rat)) =
        Except.error (GenError.invalidPreset validTypes)) ∧
    ("toString" ∈ objectProtoNames ∧ (4:Int) ≤ 10 ∧
      generatePasswordCore 10 "toString" false (fun _ => (0:Rat)) =
        Except.error (GenError.typeError "length")) :=
  ⟨⟨by decide, by decide,
      (preset_validation "nonexistent").1 (by decide) (by decide) 10 false (fun _ => 0)⟩,
   ⟨by decide, by decide,
      (preset_validation "toString").2.1 (by decide) 10 false (fun _ => 0) (by decide)⟩⟩

/-- C9: the level returned by the scorer is the threshold ladder applied
to the final clamped score (the source applies the ladder before
clamping, but on the reachable range the two agree). -/
theorem level_from_clamped_score (p : String) :
    (calculatePasswordStrength p).level =
      strengthLevelOf ((calculatePasswordStrength p).score) := by
  have h := rawScore_bounds p.data
  unfold calculatePasswordStrength
  dsimp only
  exact levelOf_clamp h.1 h.2

/-- C10: for every input whatsoever, `generatePassword` returns a
well-formed envelope: either a success carrying the generated data with
`success = true`, or a failure with `success = false` and an error object
whose code is `GENERATION_ERROR`. -/
theorem envelope_always_wellformed (length : Int) (type : String) (excl : Bool)
    (rnd : Nat → Rat) :
    (∃ d, generatePassword length type excl rnd = GenResult.ok d ∧
      (generatePassword length type excl rnd).success = true) ∨
    (∃ msg, generatePassword length type excl rnd =
        GenResult.err ⟨msg, "GENERATION_ERROR"⟩ ∧
      (generatePassword length type excl rnd).success = false) := by
  unfold generatePassword
  cases h : generatePasswordCore length type excl rnd with
  | ok d => exact Or.inl ⟨d, rfl, rfl⟩
  | error e => exact Or.inr ⟨e.message, rfl, rfl⟩
